import Mathlib

/-!
# Registration and login handlers of `routes/users.js`

A shallow embedding of the two request handlers `router.post('/signup')` and
`router.post('/login')`.  A handler run is a pure function from the request body and
the outcomes of its collaborators (user directory, password hasher, token signer) to
the ordered list of effects the handler performs, the HTTP response among them.
-/

namespace PunchClock

/-! ## JavaScript values -/

/-- A JavaScript string, as its sequence of UTF-16 code units. -/
abbrev JsString := List Nat

/-- The UTF-16 code units of one Unicode scalar value. -/
def utf16 (c : Char) : List Nat :=
  if c.toNat < 65536 then [c.toNat]
  else [55296 + (c.toNat - 65536) / 1024, 56320 + (c.toNat - 65536) % 1024]

/-- The JavaScript string holding the given text. -/
def js (s : String) : JsString := (s.toList.map utf16).flatten

/-- A value found in a parsed JSON request body or in a stored record.
`undefined` stands for an absent field.  `num` holds an integral number of magnitude
below `10 ^ 21`, the numbers that ToString renders as plain decimals.  `other` is any
value besides: an array, an object, or a number that is not such an integer; all of
these are truthy, and `repr` is what ToString yields for the value, `none` when
ToString throws (as for an object whose `toString` is not callable). -/
inductive JsVal where
  | undefined
  | null
  | bool (b : Bool)
  | num (n : Int)
  | str (s : JsString)
  | other (repr : Option JsString)
  deriving DecidableEq, Repr

namespace JsVal

/-- JavaScript truthiness (`!v` is the negation of this). -/
def truthy : JsVal → Bool
  | undefined => false
  | null => false
  | bool b => b
  | num n => n != 0
  | str s => !s.isEmpty
  | other _ => true

end JsVal

/-- A value that is thrown, or that a promise is rejected with.  `value` is anything
other than `undefined` and `null`: whether it is an instance of
`mongoose.Error.ValidationError`, what its `code` property reads, and whether
`JSON.stringify` succeeds on it, which is what `res.json(error)` needs in order to
send. -/
inductive Thrown where
  | undefined
  | null
  | value (isValidationError : Bool) (code : JsVal) (serialisable : Bool)
  deriving DecidableEq, Repr

/-- A `TypeError`, as raised by reading a property of `undefined` or `null`, by
serialising a circular structure, or by a conversion that finds nothing callable. -/
def typeError : Thrown := .value false .undefined true

/-- The abstract operation ToString: the string, or the exception it throws. -/
def JsVal.toStr : JsVal → Except Thrown JsString
  | .undefined => .ok (js "undefined")
  | .null => .ok (js "null")
  | .bool true => .ok (js "true")
  | .bool false => .ok (js "false")
  | .num n => .ok (js (toString n))
  | .str s => .ok s
  | .other (some repr) => .ok repr
  | .other none => .error typeError

/-! ## Regular expressions -/

/-- Regular expressions over code units, enough for the pattern of the signup handler. -/
inductive Regex where
  | never
  | empty
  | unit (p : Nat → Bool)
  | seq (r s : Regex)
  | alt (r s : Regex)
  | star (r : Regex)

namespace Regex

/-- The quantifier `+`. -/
def plus (r : Regex) : Regex := seq r (star r)

/-- The quantifier `{2,}`. -/
def atLeastTwo (r : Regex) : Regex := seq r (seq r (star r))

/-- Whether the expression accepts the empty input. -/
def nullable : Regex → Bool
  | never => false
  | empty => true
  | unit _ => false
  | seq r s => nullable r && nullable s
  | alt r s => nullable r || nullable s
  | star _ => true

/-- The expression accepting what is left of a match after the code unit `a`. -/
def deriv : Regex → Nat → Regex
  | never, _ => never
  | empty, _ => never
  | unit p, a => if p a then empty else never
  | seq r s, a => if nullable r then alt (seq (deriv r a) s) (deriv s a) else seq (deriv r a) s
  | alt r s, a => alt (deriv r a) (deriv s a)
  | star r, a => seq (deriv r a) (star r)

/-- Whether the whole input matches the expression (a pattern anchored by `^` and `$`). -/
def test : Regex → JsString → Bool
  | r, [] => nullable r
  | r, a :: t => test (deriv r a) t

/-- The set of inputs an expression denotes. -/
def lang : Regex → Language Nat
  | never => 0
  | empty => 1
  | unit p => {w | ∃ a, p a = true ∧ w = [a]}
  | seq r s => lang r * lang s
  | alt r s => lang r + lang s
  | star r => KStar.kstar (lang r)

end Regex

/-- The class `\s` of ECMAScript: white space and line terminators. -/
def isWhiteSpace (u : Nat) : Bool :=
  u == 9 || u == 10 || u == 11 || u == 12 || u == 13 || u == 32 || u == 160 ||
  u == 5760 || (8192 ≤ u && u ≤ 8202) || u == 8232 || u == 8233 || u == 8239 ||
  u == 8287 || u == 12288 || u == 65279

/-- The class `[^\s@]`. -/
def notSpaceAt (u : Nat) : Bool := !(isWhiteSpace u || u == 64)

/-- The pattern `/^[^\s@]+@[^\s@]+\.[^\s@]{2,}$/` of the signup handler. -/
def emailRegex : Regex :=
  .seq (.plus (.unit notSpaceAt))
    (.seq (.unit (· == 64))
      (.seq (.plus (.unit notSpaceAt))
        (.seq (.unit (· == 46))
          (.atLeastTwo (.unit notSpaceAt)))))

/-- The method `RegExp.prototype.test` of an anchored pattern: the argument is converted
with ToString, which may throw, and the resulting string is matched. -/
def Regex.testValue (r : Regex) (v : JsVal) : Except Thrown Bool :=
  match v.toStr with
  | .error e => .error e
  | .ok s => .ok (r.test s)

/-! ## Records, payloads and responses -/

/-- A document of the users collection, as the handlers read it. -/
structure UserRecord where
  _id : JsVal
  email : JsVal
  username : JsVal
  password : JsVal
  deriving DecidableEq, Repr

/-- The object handed to `User.create`. -/
structure NewUser where
  email : JsVal
  password : JsString
  username : JsVal
  deriving DecidableEq, Repr

/-- The body of a signup request, after destructuring. -/
structure SignupBody where
  email : JsVal
  password : JsVal
  username : JsVal
  deriving DecidableEq, Repr

/-- The body of a login request, after destructuring. -/
structure LoginBody where
  email : JsVal
  password : JsVal
  deriving DecidableEq, Repr

/-- A token payload: an object literal, as its fields in source order. -/
abbrev Payload := List (String × JsVal)

/-- The options object passed to `jwt.sign`. -/
structure SignOptions where
  algorithm : String
  expiresIn : String
  deriving DecidableEq, Repr

/-- The argument of `res.json`: an object literal with string fields, or an error value. -/
inductive Body where
  | fields (kv : List (String × String))
  | error (e : Thrown)
  deriving DecidableEq, Repr

/-- What a handler does, in order. `respond` is a `res.status(status).json(body)` that
sends; `unhandledRejection` is a promise of the handler rejected with no handler left;
`uncaught` is an exception that leaves the handler synchronously. -/
inductive Effect where
  | findOne (email : JsVal)
  | genSaltSync (rounds : Nat)
  | hashSync (password : JsVal) (salt : String)
  | create (doc : NewUser)
  | compareSync (password : JsVal) (digest : JsVal)
  | sign (payload : Payload) (secret : JsVal) (options : SignOptions)
  | log (text : String) (value : Option Thrown)
  | respond (status : Nat) (body : Body)
  | unhandledRejection (reason : Thrown)
  | uncaught (exception : Thrown)
  deriving DecidableEq, Repr

/-- The collaborators of the handlers over a directory state `σ`: `User.findOne` and
`User.create` (a promise that resolves or rejects), `bcrypt.genSaltSync`,
`bcrypt.hashSync`, `bcrypt.compareSync` and `jwt.sign` (a call that returns or throws)
and `process.env.SECRET`. -/
structure Collab (σ : Type) where
  findOne : σ → JsVal → Except Thrown (Option UserRecord)
  create : σ → NewUser → Except Thrown UserRecord × σ
  genSaltSync : Nat → Except Thrown String
  hashSync : JsVal → String → Except Thrown JsString
  compareSync : JsVal → JsVal → Except Thrown Bool
  sign : Payload → JsVal → SignOptions → Except Thrown String
  secret : JsVal

/-- The constant `saltRounds`. -/
def saltRounds : Nat := 10

/-- The options both handlers pass to `jwt.sign`. -/
def jwtOptions : SignOptions := { algorithm := "HS256", expiresIn := "6h" }

/-- The body `{ message }`. -/
def message (text : String) : Body := .fields [("message", text)]

/-- The body `{ authToken }`. -/
def tokenBody (authToken : String) : Body := .fields [("authToken", authToken)]

/-- The payload `{ email, username, _id }` signup builds from the created record. -/
def signupPayload (createUser : UserRecord) : Payload :=
  [("email", createUser.email), ("username", createUser.username), ("_id", createUser._id)]

/-- The payload `{ _id, email, username }` login builds from the found record. -/
def loginPayload (foundUser : UserRecord) : Payload :=
  [("_id", foundUser._id), ("email", foundUser.email), ("username", foundUser.username)]

/-! ## The handlers -/

/-- The `.catch` that closes the outer promise chain of signup. -/
def signupOuterCatch (err : Thrown) : List Effect :=
  [.log "" (some err), .respond 500 (message "Internal Server Error")]

/-- The call `res.status(status).json(error)` inside a `.catch` whose promise nobody
awaits: it sends when the error serialises; otherwise `res.json` throws before anything
is sent and the throw is an unhandled rejection. -/
def jsonError (status : Nat) (error : Thrown) : List Effect :=
  match error with
  | .value _ _ false => [.unhandledRejection typeError]
  | _ => [.respond status (.error error)]

/-- The error values the `.catch` on `create` can report: neither `undefined` nor
`null`, and serialisable. -/
def Thrown.sendable : Thrown → Bool
  | .value _ _ true => true
  | _ => false

/-- The `.catch` chained on `User.create(...).then(...)` in signup.  On `undefined` or
`null` the test `error instanceof ...` is false and reading `error.code` throws inside
the handler; the promise is not returned to the outer chain, so nothing catches that,
nor a throw of `res.json`. -/
def signupCreateCatch (error : Thrown) : List Effect :=
  match error with
  | .value true _ _ =>
    .log "This is the error ===> " (some error) :: jsonError 501 error
  | .value false code _ =>
    if code = .num 11000 then
      .log "Invalid username, email or password." none :: jsonError 502 error
    else
      jsonError 503 error
  | _ => [.unhandledRejection typeError]

/-- The handler `router.post('/signup')`: its effects and the directory it leaves. -/
def signup {σ : Type} (w : Collab σ) (db : σ) (body : SignupBody) : List Effect × σ :=
  if !body.email.truthy || !body.password.truthy || !body.username.truthy then
    ([.respond 400 (message "Provide email, password and name")], db)
  else
    match emailRegex.testValue body.email with
    | .error exception => ([.uncaught exception], db)
    | .ok false => ([.respond 400 (message "Provide a valid email address.")], db)
    | .ok true =>
    match w.findOne db body.email with
    | .error err => (.findOne body.email :: signupOuterCatch err, db)
    | .ok (some _) =>
      ([.findOne body.email, .respond 400 (message "User already exists.")], db)
    | .ok none =>
      match w.genSaltSync saltRounds with
      | .error err =>
        ([.findOne body.email, .genSaltSync saltRounds] ++ signupOuterCatch err, db)
      | .ok salt =>
        match w.hashSync body.password salt with
        | .error err =>
          ([.findOne body.email, .genSaltSync saltRounds, .hashSync body.password salt]
            ++ signupOuterCatch err, db)
        | .ok hashedPassword =>
          let doc : NewUser :=
            { email := body.email, password := hashedPassword, username := body.username }
          let started : List Effect :=
            [.findOne body.email, .genSaltSync saltRounds, .hashSync body.password salt,
              .create doc]
          match w.create db doc with
          | (.error error, db1) => (started ++ signupCreateCatch error, db1)
          | (.ok createUser, db1) =>
            let payload := signupPayload createUser
            match w.sign payload w.secret jwtOptions with
            | .error error =>
              (started ++ .sign payload w.secret jwtOptions :: signupCreateCatch error, db1)
            | .ok authToken =>
              (started ++
                [.sign payload w.secret jwtOptions, .respond 200 (tokenBody authToken)], db1)

/-- The `.catch` that closes the promise chain of login. -/
def loginCatch (_err : Thrown) : List Effect :=
  [.respond 500 (message "Internal Server Error")]

/-- The handler `router.post('/login')`: its effects (it never writes the directory). -/
def login {σ : Type} (w : Collab σ) (db : σ) (body : LoginBody) : List Effect :=
  if body.email = .str [] ∨ body.password = .str [] then
    [.respond 400 (message "Provide email and password.")]
  else
    match w.findOne db body.email with
    | .error err => .findOne body.email :: loginCatch err
    | .ok none =>
      [.findOne body.email, .respond 401 (message "Incorrect Email or Password")]
    | .ok (some foundUser) =>
      let started : List Effect :=
        [.findOne body.email, .compareSync body.password foundUser.password]
      match w.compareSync body.password foundUser.password with
      | .error err => started ++ loginCatch err
      | .ok false => started ++ [.respond 401 (message "Unable to authenticate the user")]
      | .ok true =>
        let payload := loginPayload foundUser
        match w.sign payload w.secret jwtOptions with
        | .error err => started ++ .sign payload w.secret jwtOptions :: loginCatch err
        | .ok authToken =>
          started ++ [.sign payload w.secret jwtOptions, .respond 200 (tokenBody authToken)]

/-! ## Observations on a run -/

/-- The responses sent during a run, in order. -/
def responses : List Effect → List (Nat × Body)
  | [] => []
  | .respond status body :: rest => (status, body) :: responses rest
  | _ :: rest => responses rest

/-- Whether the effect is a call to the token signer. -/
def Effect.isSign : Effect → Bool
  | .sign _ _ _ => true
  | _ => false

/-- Whether the effect is a call to the hasher (salt, hash or compare). -/
def Effect.isHasher : Effect → Bool
  | .genSaltSync _ => true
  | .hashSync _ _ => true
  | .compareSync _ _ => true
  | _ => false

/-- Whether the effect is a call to `User.create`. -/
def Effect.isCreate : Effect → Bool
  | .create _ => true
  | _ => false

/-! ## The address form -/

/-- The identifiers the pattern of the signup handler accepts, spelled out:
`local@head.tail` with `local` and `head` non-empty, `tail` of at least two code units,
and no white space or `@` in any of the three (`head` and `tail` may hold dots). -/
def EmailShape (s : JsString) : Prop :=
  ∃ l h t : JsString, s = l ++ 64 :: (h ++ 46 :: t) ∧ l ≠ [] ∧ h ≠ [] ∧ 2 ≤ t.length ∧
    (∀ c ∈ l, notSpaceAt c = true) ∧ (∀ c ∈ h, notSpaceAt c = true) ∧
    (∀ c ∈ t, notSpaceAt c = true)

/-- The part of a domain after its last dot. -/
def tldSegment (domain : JsString) : JsString :=
  (domain.reverse.takeWhile (· != 46)).reverse

/-- The address form in the words of the specification: `local-part@domain`, both
non-empty and free of white space and `@`, the domain holding a dot, and the segment
after the last dot of the domain having at least two characters. -/
def specEmailForm (s : JsString) : Bool :=
  match s.dropWhile (· != 64) with
  | [] => false
  | _ :: domain =>
    let localPart := s.takeWhile (· != 64)
    !localPart.isEmpty && !domain.isEmpty && localPart.all notSpaceAt &&
      domain.all notSpaceAt && domain.contains 46 && decide (2 ≤ (tldSegment domain).length)

/-! ## A directory and collaborators to run the handlers on -/

/-- The rejection reason of a duplicate-key failure of the store. -/
def duplicateKey : Thrown := .value false (.num 11000) true

/-- Modelled from the spec: the lookup of the user directory (`models/User`, not part
of the sources at hand), `findByIdentifier(id) -> Record|None`, over a list of records,
matching the identifier exactly. -/
def directoryFindOne (db : List UserRecord) (email : JsVal) :
    Except Thrown (Option UserRecord) :=
  .ok (db.find? (fun r => r.email == email))

/-- Modelled from the spec: the creation of the user directory (`models/User`, not
part of the sources at hand), `create(record) -> Record`, which enforces identifier
uniqueness and fails with a duplicate-key signal on a collision; a created record gets
a system-assigned id and is appended. -/
def directoryCreate (db : List UserRecord) (doc : NewUser) :
    Except Thrown UserRecord × List UserRecord :=
  if db.any (fun r => r.email == doc.email) then (.error duplicateKey, db)
  else
    let created : UserRecord :=
      { _id := .num db.length, email := doc.email, username := doc.username,
        password := .str doc.password }
    (.ok created, db ++ [created])

/-- The collaborators of the handlers, with the list directory in the place of the store. -/
def withDirectory (genSaltSync : Nat → Except Thrown String)
    (hashSync : JsVal → String → Except Thrown JsString)
    (compareSync : JsVal → JsVal → Except Thrown Bool)
    (sign : Payload → JsVal → SignOptions → Except Thrown String) (secret : JsVal) :
    Collab (List UserRecord) :=
  { findOne := directoryFindOne, create := directoryCreate, genSaltSync := genSaltSync,
    hashSync := hashSync, compareSync := compareSync, sign := sign, secret := secret }

/-- A stand-in hasher: the digest is the salt followed by the password; anything but a
string is refused, as `bcryptjs` refuses it. -/
def sampleHashSync (password : JsVal) (salt : String) : Except Thrown JsString :=
  match password with
  | .str s => .ok (js salt ++ s)
  | _ => .error typeError

/-- The verification that goes with `sampleHashSync` for the salt `"$"`. -/
def sampleCompareSync (password : JsVal) (digest : JsVal) : Except Thrown Bool :=
  match password, digest with
  | .str s, .str d => .ok (d == js "$" ++ s)
  | _, _ => .error typeError

/-- A stand-in signer: refuses a missing secret, else returns a fixed token. -/
def sampleSign (_payload : Payload) (secret : JsVal) (_options : SignOptions) :
    Except Thrown String :=
  if secret = .undefined then .error typeError else .ok "token"

/-- The list directory with the stand-in hasher and signer. -/
def sample : Collab (List UserRecord) :=
  withDirectory (fun _ => .ok "$") sampleHashSync sampleCompareSync sampleSign
    (.str (js "secret"))

/-- A stored record of the sample directory: `a@b.co` with password `pw`. -/
def alice : UserRecord :=
  { _id := .num 0, email := .str (js "a@b.co"), username := .str (js "A"),
    password := .str (js "$pw") }

/-- The sample collaborators over a store whose `create` rejects with the given
reason although the lookup saw no record, as in a race between two registrations. -/
def rejecting (reason : Thrown) : Collab (List UserRecord) :=
  { sample with create := fun db _ => (.error reason, db) }

/-! ## Correctness of the matcher -/

namespace Regex

theorem nil_mem_lang (r : Regex) : [] ∈ lang r ↔ nullable r = true := by
  induction r with
  | never => simp [lang, nullable, Language.not_mem_zero]
  | empty => simp [lang, nullable, Language.mem_one]
  | unit p =>
    simp only [nullable, Bool.false_eq_true, iff_false]
    rintro ⟨a, _, ha⟩
    exact List.noConfusion ha
  | seq r s ihr ihs =>
    simp only [lang, nullable, Language.mem_mul, Bool.and_eq_true, ← ihr, ← ihs]
    constructor
    · rintro ⟨u, hu, v, hv, huv⟩
      obtain ⟨rfl, rfl⟩ := List.append_eq_nil.mp huv
      exact ⟨hu, hv⟩
    · rintro ⟨hu, hv⟩
      exact ⟨[], hu, [], hv, rfl⟩
  | alt r s ihr ihs => simp [lang, nullable, Language.mem_add, ihr, ihs]
  | star r _ => simp [lang, nullable, Language.nil_mem_kstar]

theorem cons_mem_kstar (l : Language Nat) (a : Nat) (x : List Nat) :
    a :: x ∈ KStar.kstar l ↔ ∃ u v, x = u ++ v ∧ a :: u ∈ l ∧ v ∈ KStar.kstar l := by
  constructor
  · intro h
    obtain ⟨S, hS, hall⟩ := Language.mem_kstar_iff_exists_nonempty.mp h
    cases S with
    | nil => simp at hS
    | cons y S =>
      have hy := hall y (List.mem_cons_self _ _)
      cases y with
      | nil => exact absurd rfl hy.2
      | cons b u =>
        simp only [List.flatten, List.cons_append, List.cons.injEq] at hS
        obtain ⟨rfl, rfl⟩ := hS
        refine ⟨u, S.flatten, rfl, hy.1, ?_⟩
        exact Language.join_mem_kstar (fun z hz => (hall z (List.mem_cons_of_mem _ hz)).1)
  · rintro ⟨u, v, rfl, hu, hv⟩
    obtain ⟨S, rfl, hS⟩ := Language.mem_kstar.mp hv
    have : a :: (u ++ S.flatten) = ((a :: u) :: S).flatten := by simp
    rw [this]
    apply Language.join_mem_kstar
    intro y hy
    rcases List.mem_cons.mp hy with rfl | hy
    · exact hu
    · exact hS y hy

theorem mem_lang_deriv (r : Regex) (a : Nat) (x : List Nat) :
    x ∈ lang (deriv r a) ↔ a :: x ∈ lang r := by
  induction r generalizing x with
  | never => simp [lang, deriv, Language.not_mem_zero]
  | empty => simp [lang, deriv, Language.not_mem_zero, Language.mem_one]
  | unit p =>
    by_cases hp : p a = true
    · simp only [deriv, hp, if_true, lang, Language.mem_one]
      constructor
      · rintro rfl
        exact ⟨a, hp, rfl⟩
      · rintro ⟨b, _, hb⟩
        simpa using (List.cons.inj hb).2
    · simp only [deriv, hp, lang, Language.not_mem_zero, false_iff]
      rintro ⟨b, hb, hx⟩
      obtain ⟨rfl, _⟩ := List.cons.inj hx
      exact hp hb
  | seq r s ihr ihs =>
    have key : a :: x ∈ lang r * lang s ↔
        (nullable r = true ∧ a :: x ∈ lang s) ∨
          ∃ u v, x = u ++ v ∧ a :: u ∈ lang r ∧ v ∈ lang s := by
      rw [Language.mem_mul]
      constructor
      · rintro ⟨u, hu, v, hv, huv⟩
        cases u with
        | nil =>
          left
          simp only [List.nil_append] at huv
          subst huv
          exact ⟨(nil_mem_lang r).mp hu, hv⟩
        | cons b u =>
          right
          simp only [List.cons_append, List.cons.injEq] at huv
          obtain ⟨rfl, rfl⟩ := huv
          exact ⟨u, v, rfl, hu, hv⟩
      · rintro (⟨hn, hs⟩ | ⟨u, v, rfl, hu, hv⟩)
        · exact ⟨[], (nil_mem_lang r).mpr hn, a :: x, hs, rfl⟩
        · exact ⟨a :: u, hu, v, hv, rfl⟩
    have split : x ∈ lang (deriv r a) * lang s ↔
        ∃ u v, x = u ++ v ∧ a :: u ∈ lang r ∧ v ∈ lang s := by
      rw [Language.mem_mul]
      constructor
      · rintro ⟨u, hu, v, hv, rfl⟩
        exact ⟨u, v, rfl, (ihr u).mp hu, hv⟩
      · rintro ⟨u, v, rfl, hu, hv⟩
        exact ⟨u, (ihr u).mpr hu, v, hv, rfl⟩
    show x ∈ lang (deriv (seq r s) a) ↔ a :: x ∈ lang r * lang s
    rw [key]
    by_cases hn : nullable r = true
    · simp only [deriv, hn, if_true, lang, Language.mem_add, split, ihs, true_and]
      exact Or.comm
    · simp only [deriv, hn, lang, split, false_and, false_or]
      simp
  | alt r s ihr ihs => simp [lang, deriv, Language.mem_add, ihr, ihs]
  | star r ih =>
    show x ∈ lang (deriv r a) * KStar.kstar (lang r) ↔ a :: x ∈ KStar.kstar (lang r)
    rw [cons_mem_kstar, Language.mem_mul]
    constructor
    · rintro ⟨u, hu, v, hv, rfl⟩
      exact ⟨u, v, rfl, (ih u).mp hu, hv⟩
    · rintro ⟨u, v, rfl, hu, hv⟩
      exact ⟨u, (ih u).mpr hu, v, hv, rfl⟩

theorem test_iff_mem_lang (r : Regex) (x : JsString) : test r x = true ↔ x ∈ lang r := by
  induction x generalizing r with
  | nil => simpa [test] using (nil_mem_lang r).symm
  | cons a t ih => rw [test, ih, mem_lang_deriv]

theorem mem_lang_unit (p : Nat → Bool) (x : List Nat) :
    x ∈ lang (unit p) ↔ ∃ a, p a = true ∧ x = [a] := Iff.rfl

theorem mem_lang_seq_unit (p : Nat → Bool) (r : Regex) (x : List Nat) :
    x ∈ lang (seq (unit p) r) ↔ ∃ a t, x = a :: t ∧ p a = true ∧ t ∈ lang r := by
  show x ∈ lang (unit p) * lang r ↔ _
  rw [Language.mem_mul]
  constructor
  · rintro ⟨u, ⟨a, ha, rfl⟩, v, hv, rfl⟩
    exact ⟨a, v, rfl, ha, hv⟩
  · rintro ⟨a, t, rfl, ha, ht⟩
    exact ⟨[a], ⟨a, ha, rfl⟩, t, ht, rfl⟩

theorem mem_lang_star_unit (p : Nat → Bool) (x : List Nat) :
    x ∈ lang (star (unit p)) ↔ ∀ c ∈ x, p c = true := by
  show x ∈ KStar.kstar (lang (unit p)) ↔ _
  induction x with
  | nil => simp [Language.nil_mem_kstar]
  | cons a t ih =>
    rw [cons_mem_kstar, List.forall_mem_cons, ← ih]
    constructor
    · rintro ⟨u, v, rfl, ⟨b, hb, hu⟩, hv⟩
      obtain ⟨rfl, rfl⟩ := List.cons.inj hu
      exact ⟨hb, hv⟩
    · rintro ⟨ha, ht⟩
      exact ⟨[], t, rfl, ⟨a, ha, rfl⟩, ht⟩

theorem mem_lang_plus_unit (p : Nat → Bool) (x : List Nat) :
    x ∈ lang (plus (unit p)) ↔ x ≠ [] ∧ ∀ c ∈ x, p c = true := by
  rw [plus, mem_lang_seq_unit]
  constructor
  · rintro ⟨a, t, rfl, ha, ht⟩
    refine ⟨List.cons_ne_nil _ _, ?_⟩
    rw [List.forall_mem_cons]
    exact ⟨ha, (mem_lang_star_unit p t).mp ht⟩
  · rintro ⟨hne, hall⟩
    cases x with
    | nil => exact absurd rfl hne
    | cons a t =>
      rw [List.forall_mem_cons] at hall
      exact ⟨a, t, rfl, hall.1, (mem_lang_star_unit p t).mpr hall.2⟩

theorem mem_lang_atLeastTwo_unit (p : Nat → Bool) (x : List Nat) :
    x ∈ lang (atLeastTwo (unit p)) ↔ 2 ≤ x.length ∧ ∀ c ∈ x, p c = true := by
  rw [atLeastTwo, mem_lang_seq_unit]
  constructor
  · rintro ⟨a, t, rfl, ha, ht⟩
    obtain ⟨b, t2, rfl, hb, ht2⟩ := (mem_lang_seq_unit p _ t).mp ht
    refine ⟨by simp, ?_⟩
    rw [List.forall_mem_cons, List.forall_mem_cons]
    exact ⟨ha, hb, (mem_lang_star_unit p t2).mp ht2⟩
  · rintro ⟨hlen, hall⟩
    match x, hlen, hall with
    | a :: b :: t, _, hall =>
      rw [List.forall_mem_cons, List.forall_mem_cons] at hall
      exact ⟨a, b :: t, rfl, hall.1,
        (mem_lang_seq_unit p _ _).mpr ⟨b, t, rfl, hall.2.1, (mem_lang_star_unit p t).mpr hall.2.2⟩⟩

end Regex

/-- The pattern of the signup handler accepts exactly the identifiers of `EmailShape`. -/
theorem emailRegex_test_iff (s : JsString) : emailRegex.test s = true ↔ EmailShape s := by
  rw [Regex.test_iff_mem_lang]
  show s ∈ Regex.lang (.plus (.unit notSpaceAt)) *
      Regex.lang (.seq (.unit (· == 64)) (.seq (.plus (.unit notSpaceAt))
        (.seq (.unit (· == 46)) (.atLeastTwo (.unit notSpaceAt))))) ↔ _
  rw [Language.mem_mul]
  constructor
  · rintro ⟨l, hl, rest, hrest, rfl⟩
    obtain ⟨hlne, hlall⟩ := (Regex.mem_lang_plus_unit _ l).mp hl
    obtain ⟨a, r1, rfl, ha, hr1⟩ := (Regex.mem_lang_seq_unit _ _ rest).mp hrest
    obtain ⟨h, hh, r2, hr2, rfl⟩ := Language.mem_mul.mp hr1
    obtain ⟨hhne, hhall⟩ := (Regex.mem_lang_plus_unit _ h).mp hh
    obtain ⟨d, t, rfl, hd, ht⟩ := (Regex.mem_lang_seq_unit _ _ r2).mp hr2
    obtain ⟨htlen, htall⟩ := (Regex.mem_lang_atLeastTwo_unit _ t).mp ht
    have ha64 : a = 64 := by simpa using ha
    have hd46 : d = 46 := by simpa using hd
    subst ha64 hd46
    exact ⟨l, h, t, rfl, hlne, hhne, htlen, hlall, hhall, htall⟩
  · rintro ⟨l, h, t, rfl, hlne, hhne, htlen, hlall, hhall, htall⟩
    refine ⟨l, (Regex.mem_lang_plus_unit _ l).mpr ⟨hlne, hlall⟩, 64 :: (h ++ 46 :: t), ?_, rfl⟩
    refine (Regex.mem_lang_seq_unit _ _ _).mpr ⟨64, h ++ 46 :: t, rfl, by simp, ?_⟩
    refine Language.mem_mul.mpr ⟨h, (Regex.mem_lang_plus_unit _ h).mpr ⟨hhne, hhall⟩, 46 :: t, ?_, rfl⟩
    exact (Regex.mem_lang_seq_unit _ _ _).mpr
      ⟨46, t, rfl, by simp, (Regex.mem_lang_atLeastTwo_unit _ t).mpr ⟨htlen, htall⟩⟩

theorem testValue_str (r : Regex) (s : JsString) :
    r.testValue (.str s) = .ok (r.test s) := rfl

/-! ## Login: the two refusals -/

/-- C1: evaluated on the same login request, once against a directory without the
identifier and once against a directory holding it with another password, the handler
answers 401 both times but with two different message bodies, so the two responses are
not identical. -/
theorem login_refusals_differ :
    login sample [] ⟨.str (js "a@b.co"), .str (js "bad")⟩ =
        [.findOne (.str (js "a@b.co")),
          .respond 401 (message "Incorrect Email or Password")] ∧
      login sample [alice] ⟨.str (js "a@b.co"), .str (js "bad")⟩ =
        [.findOne (.str (js "a@b.co")),
          .compareSync (.str (js "bad")) (.str (js "$pw")),
          .respond 401 (message "Unable to authenticate the user")] ∧
      responses (login sample [] ⟨.str (js "a@b.co"), .str (js "bad")⟩) ≠
        responses (login sample [alice] ⟨.str (js "a@b.co"), .str (js "bad")⟩) := by
  decide

/-! ## Signup: input validation -/

theorem signup_of_falsy {σ : Type} (w : Collab σ) (db : σ) (body : SignupBody)
    (h : body.email.truthy = false ∨ body.password.truthy = false ∨
      body.username.truthy = false) :
    signup w db body = ([.respond 400 (message "Provide email, password and name")], db) := by
  unfold signup
  rcases h with h | h | h <;> simp [h]

/-- C3: a signup request in which the email, the password or the username is missing
or the empty string is answered with status 400 and the message
"Provide email, password and name", and that response is the only effect of the run:
no lookup, no hashing, no creation, no signing, the directory as it was; this holds
whatever the email looks like, so the check comes before the format check. -/
theorem signup_missing_field {σ : Type} (w : Collab σ) (db : σ) (body : SignupBody)
    (h : (body.email = .undefined ∨ body.email = .str []) ∨
      (body.password = .undefined ∨ body.password = .str []) ∨
      (body.username = .undefined ∨ body.username = .str [])) :
    signup w db body = ([.respond 400 (message "Provide email, password and name")], db) := by
  apply signup_of_falsy
  rcases h with (h | h) | (h | h) | (h | h) <;> simp [h, JsVal.truthy]

theorem signup_missing_field_witness :
    signup sample [alice] ⟨.str (js "not an address"), .undefined, .str (js "A")⟩ =
      ([.respond 400 (message "Provide email, password and name")], [alice]) :=
  signup_missing_field sample [alice] ⟨.str (js "not an address"), .undefined, .str (js "A")⟩
    (Or.inr (Or.inl (Or.inl rfl)))

/-- C2, as the code has it: for a signup request with non-empty password and username
and a non-empty string identifier, the handler answers 400 with the message
"Provide a valid email address." as its only effect (no lookup) whenever the identifier
is not of the form `local@head.tail` with `local` and `head` non-empty, `tail` of at
least two code units and no white space or `@` in any of them, dots allowed in `head`
and `tail`; an identifier of that form passes the check and the handler goes on to the
directory lookup. -/
theorem signup_email_check {σ : Type} (w : Collab σ) (db : σ) (s : JsString)
    (password username : JsVal) (hs : s ≠ []) (hp : password.truthy = true)
    (hu : username.truthy = true) :
    (¬ EmailShape s → signup w db ⟨.str s, password, username⟩ =
        ([.respond 400 (message "Provide a valid email address.")], db)) ∧
      (EmailShape s → ∃ rest,
        (signup w db ⟨.str s, password, username⟩).1 = .findOne (.str s) :: rest) := by
  have he : (JsVal.str s).truthy = true := by
    cases s with
    | nil => exact absurd rfl hs
    | cons a t => rfl
  constructor
  · intro hshape
    have ht : emailRegex.testValue (.str s) = .ok false := by
      rw [testValue_str]
      congr 1
      rw [← Bool.not_eq_true, emailRegex_test_iff]
      exact hshape
    simp [signup, he, hp, hu, ht]
  · intro hshape
    have ht : emailRegex.testValue (.str s) = .ok true := by
      rw [testValue_str, (emailRegex_test_iff s).mpr hshape]
    simp only [signup, he, hp, hu, ht]
    simp only [Bool.not_true, Bool.or_self, Bool.false_eq_true, if_false]
    split
    · exact ⟨_, rfl⟩
    · exact ⟨_, rfl⟩
    · split
      · exact ⟨_, rfl⟩
      · split
        · exact ⟨_, rfl⟩
        · split
          · exact ⟨_, rfl⟩
          · split <;> exact ⟨_, rfl⟩

theorem signup_email_check_witness :
    signup sample [] ⟨.str (js "a.b"), .str (js "pw"), .str (js "A")⟩ =
        ([.respond 400 (message "Provide a valid email address.")], []) ∧
      ∃ rest, (signup sample [] ⟨.str (js "a@b.co"), .str (js "pw"), .str (js "A")⟩).1 =
        .findOne (.str (js "a@b.co")) :: rest :=
  ⟨(signup_email_check sample [] (js "a.b") (.str (js "pw")) (.str (js "A"))
      (by decide) rfl rfl).1 (by rw [← emailRegex_test_iff]; decide),
    (signup_email_check sample [] (js "a@b.co") (.str (js "pw")) (.str (js "A"))
      (by decide) rfl rfl).2
      ⟨[97], [98], [99, 111], by decide, by decide, by decide, by decide, by decide,
        by decide, by decide⟩⟩

/-- C2, as worded, fails both ways: `a@b.c.d` is not of the worded form (the segment
after the last dot of its domain has one character), yet signup does not answer 400 but
looks the identifier up and registers it; `a@.com` is of the worded form, yet signup
answers 400 "Provide a valid email address.". -/
theorem signup_worded_form_counterexample :
    specEmailForm (js "a@b.c.d") = false ∧
      (signup sample [] ⟨.str (js "a@b.c.d"), .str (js "pw"), .str (js "A")⟩).1.head? =
        some (.findOne (.str (js "a@b.c.d"))) ∧
      responses (signup sample [] ⟨.str (js "a@b.c.d"), .str (js "pw"), .str (js "A")⟩).1 =
        [(200, tokenBody "token")] ∧
      specEmailForm (js "a@.com") = true ∧
      signup sample [] ⟨.str (js "a@.com"), .str (js "pw"), .str (js "A")⟩ =
        ([.respond 400 (message "Provide a valid email address.")], []) := by
  decide

/-! ## Signup: the existence check -/

theorem signup_of_found {σ : Type} (w : Collab σ) (db : σ) (body : SignupBody)
    (found : UserRecord) (he : body.email.truthy = true) (hp : body.password.truthy = true)
    (hu : body.username.truthy = true) (ht : emailRegex.testValue body.email = .ok true)
    (hfound : w.findOne db body.email = .ok (some found)) :
    signup w db body =
      ([.findOne body.email, .respond 400 (message "User already exists.")], db) := by
  simp [signup, he, hp, hu, ht, hfound]

/-- C4: a signup request that passes both input checks and whose lookup resolves with a
record is answered with status 400 and the message "User already exists."; the run
consists of the lookup and that response only (no hashing, no `create`, no signing) and
leaves the directory as it was. -/
theorem signup_existing_user {σ : Type} (w : Collab σ) (db : σ) (body : SignupBody)
    (found : UserRecord) (he : body.email.truthy = true) (hp : body.password.truthy = true)
    (hu : body.username.truthy = true) (ht : emailRegex.testValue body.email = .ok true)
    (hfound : w.findOne db body.email = .ok (some found)) :
    signup w db body =
        ([.findOne body.email, .respond 400 (message "User already exists.")], db) ∧
      (∀ e ∈ (signup w db body).1,
        e.isHasher = false ∧ e.isCreate = false ∧ e.isSign = false) ∧
      ∀ b, (200, b) ∉ responses (signup w db body).1 := by
  rw [signup_of_found w db body found he hp hu ht hfound]
  simp [responses, Effect.isHasher, Effect.isCreate, Effect.isSign]

theorem signup_existing_user_witness :
    signup sample [alice] ⟨.str (js "a@b.co"), .str (js "other"), .str (js "B")⟩ =
      ([.findOne (.str (js "a@b.co")), .respond 400 (message "User already exists.")],
        [alice]) :=
  (signup_existing_user sample [alice]
    ⟨.str (js "a@b.co"), .str (js "other"), .str (js "B")⟩
    alice rfl rfl rfl rfl rfl).1

/-! ## Signup: registering once -/

theorem EmailShape.truthy {s : JsString} (h : EmailShape s) : (JsVal.str s).truthy = true := by
  obtain ⟨l, d, t, rfl, hl, _⟩ := h
  cases l with
  | nil => exact absurd rfl hl
  | cons a l => rfl

theorem directoryFindOne_fresh (db : List UserRecord) (email : JsVal)
    (hfresh : ∀ r ∈ db, r.email ≠ email) : directoryFindOne db email = .ok none := by
  unfold directoryFindOne
  congr 1
  rw [List.find?_eq_none]
  intro r hr
  simpa using hfresh r hr

theorem directoryFindOne_append (db : List UserRecord) (created : UserRecord)
    (hfresh : ∀ r ∈ db, r.email ≠ created.email) :
    directoryFindOne (db ++ [created]) created.email = .ok (some created) := by
  have h := directoryFindOne_fresh db created.email hfresh
  unfold directoryFindOne at h ⊢
  congr 1
  have hnone : db.find? (fun r => r.email == created.email) = none := by
    injection h
  rw [List.find?_append, hnone]
  simp

/-- C5: over the list directory, for a well-formed email not yet in the directory and
a non-empty password and username (salt, hash and signature succeeding), the first
signup is answered 200 with an `authToken` and appends exactly one record, which
carries that email; after it the directory holds exactly one record for the email, and
a second signup with the same email leaves the directory as it is and is answered 400,
with the message "User already exists." whenever its password and username are
non-empty. -/
theorem signup_twice (genSaltSync : Nat → Except Thrown String)
    (hashSync : JsVal → String → Except Thrown JsString)
    (compareSync : JsVal → JsVal → Except Thrown Bool)
    (sign : Payload → JsVal → SignOptions → Except Thrown String) (secret : JsVal)
    (db : List UserRecord) (s : JsString) (password username : JsVal) (salt : String)
    (digest : JsString) (hshape : EmailShape s) (hp : password.truthy = true)
    (hu : username.truthy = true) (hfresh : ∀ r ∈ db, r.email ≠ .str s)
    (hsalt : genSaltSync saltRounds = .ok salt) (hhash : hashSync password salt = .ok digest)
    (hsign : ∀ p, ∃ tok, sign p secret jwtOptions = .ok tok) :
    ∃ (tok : String) (created : UserRecord),
      created.email = .str s ∧
      signup (withDirectory genSaltSync hashSync compareSync sign secret) db
          ⟨.str s, password, username⟩ =
        ([.findOne (.str s), .genSaltSync saltRounds, .hashSync password salt,
            .create ⟨.str s, digest, username⟩,
            .sign (signupPayload created) secret jwtOptions,
            .respond 200 (tokenBody tok)], db ++ [created]) ∧
      ((db ++ [created]).filter (fun r => r.email == .str s)).length = 1 ∧
      ∀ password2 username2 : JsVal,
        (∃ b, responses (signup (withDirectory genSaltSync hashSync compareSync sign secret)
          (db ++ [created]) ⟨.str s, password2, username2⟩).1 = [(400, b)]) ∧
        (signup (withDirectory genSaltSync hashSync compareSync sign secret)
          (db ++ [created]) ⟨.str s, password2, username2⟩).2 = db ++ [created] ∧
        (password2.truthy = true → username2.truthy = true →
          (signup (withDirectory genSaltSync hashSync compareSync sign secret)
            (db ++ [created]) ⟨.str s, password2, username2⟩).1 =
            [.findOne (.str s), .respond 400 (message "User already exists.")]) := by
  have he := hshape.truthy
  have ht : emailRegex.testValue (.str s) = .ok true := by
    rw [testValue_str, (emailRegex_test_iff s).mpr hshape]
  have hfind := directoryFindOne_fresh db (.str s) hfresh
  have hany : db.any (fun r => r.email == JsVal.str s) = false := by
    rw [List.any_eq_false]
    intro r hr
    simpa using hfresh r hr
  obtain ⟨tok, htok⟩ := hsign (signupPayload ⟨.num db.length, .str s, username, .str digest⟩)
  refine ⟨tok, ⟨.num db.length, .str s, username, .str digest⟩, rfl, ?_, ?_, ?_⟩
  · simp [signup, withDirectory, he, hp, hu, ht, hfind, hsalt, hhash,
      directoryCreate, hany, htok]
  · have hnil : db.filter (fun r => r.email == JsVal.str s) = [] := by
      rw [List.filter_eq_nil_iff]
      intro r hr
      simpa using hfresh r hr
    simp [List.filter_append, hnil]
  · intro password2 username2
    have hfound := directoryFindOne_append db ⟨.num db.length, .str s, username, .str digest⟩
      hfresh
    have hexists : password2.truthy = true → username2.truthy = true →
        signup (withDirectory genSaltSync hashSync compareSync sign secret)
          (db ++ [⟨.num db.length, .str s, username, .str digest⟩])
          ⟨.str s, password2, username2⟩ =
        ([.findOne (.str s), .respond 400 (message "User already exists.")],
          db ++ [⟨.num db.length, .str s, username, .str digest⟩]) := fun h2 h3 =>
      signup_of_found _ _ _ _ he h2 h3 ht hfound
    by_cases h2 : password2.truthy = true
    · by_cases h3 : username2.truthy = true
      · rw [hexists h2 h3]
        exact ⟨⟨_, rfl⟩, rfl, fun _ _ => rfl⟩
      · rw [signup_of_falsy _ _ _ (Or.inr (Or.inr (by simpa using h3)))]
        exact ⟨⟨_, rfl⟩, rfl, fun _ h => absurd h h3⟩
    · rw [signup_of_falsy _ _ _ (Or.inr (Or.inl (by simpa using h2)))]
      exact ⟨⟨_, rfl⟩, rfl, fun h _ => absurd h h2⟩

theorem signup_twice_witness :
    ∃ (tok : String) (created : UserRecord),
      created.email = .str (js "a@b.co") ∧
      signup sample [] ⟨.str (js "a@b.co"), .str (js "pw"), .str (js "A")⟩ =
        ([.findOne (.str (js "a@b.co")), .genSaltSync saltRounds,
            .hashSync (.str (js "pw")) "$",
            .create ⟨.str (js "a@b.co"), js "$pw", .str (js "A")⟩,
            .sign (signupPayload created) (.str (js "secret")) jwtOptions,
            .respond 200 (tokenBody tok)], [] ++ [created]) ∧
      (signup sample ([] ++ [created]) ⟨.str (js "a@b.co"), .str (js "x"), .str (js "B")⟩).1 =
        [.findOne (.str (js "a@b.co")), .respond 400 (message "User already exists.")] :=
  let ⟨tok, created, hemail, hfirst, _, hsecond⟩ :=
    signup_twice (fun _ => .ok "$") sampleHashSync sampleCompareSync sampleSign
      (.str (js "secret")) [] (js "a@b.co") (.str (js "pw")) (.str (js "A")) "$" (js "$pw")
      ⟨[97], [98], [99, 111], by decide, by decide, by decide, by decide, by decide,
        by decide, by decide⟩
      rfl rfl (by simp) rfl rfl (fun _ => ⟨"token", rfl⟩)
  ⟨tok, created, hemail, hfirst, (hsecond (.str (js "x")) (.str (js "B"))).2.2 rfl rfl⟩

/-- C5, as worded, fails for an empty second password: after a first signup answered
200, a second signup with the same email and the password `''` is answered with the
message of the field check, "Provide email, password and name", not with the Conflict
response "User already exists.". -/
theorem signup_again_empty_password_counterexample :
    responses (signup sample [] ⟨.str (js "a@b.co"), .str (js "pw"), .str (js "A")⟩).1 =
        [(200, tokenBody "token")] ∧
      (signup sample
          (signup sample [] ⟨.str (js "a@b.co"), .str (js "pw"), .str (js "A")⟩).2
          ⟨.str (js "a@b.co"), .str [], .str (js "B")⟩).1 =
        [.respond 400 (message "Provide email, password and name")] ∧
      responses (signup sample
          (signup sample [] ⟨.str (js "a@b.co"), .str (js "pw"), .str (js "A")⟩).2
          ⟨.str (js "a@b.co"), .str [], .str (js "B")⟩).1 ≠
        [(400, message "User already exists.")] := by
  decide

/-! ## Signup: failures of `create` -/

theorem signup_of_create_error {σ : Type} (w : Collab σ) (db db1 : σ) (body : SignupBody)
    (salt : String) (digest : JsString) (error : Thrown)
    (he : body.email.truthy = true) (hp : body.password.truthy = true)
    (hu : body.username.truthy = true) (ht : emailRegex.testValue body.email = .ok true)
    (hnone : w.findOne db body.email = .ok none)
    (hsalt : w.genSaltSync saltRounds = .ok salt)
    (hhash : w.hashSync body.password salt = .ok digest)
    (hcreate : w.create db ⟨body.email, digest, body.username⟩ = (.error error, db1)) :
    signup w db body =
      ([.findOne body.email, .genSaltSync saltRounds, .hashSync body.password salt,
          .create ⟨body.email, digest, body.username⟩] ++ signupCreateCatch error, db1) := by
  simp [signup, he, hp, hu, ht, hnone, hsalt, hhash, hcreate]

theorem jsonError_quiet (status : Nat) (error : Thrown) (hstatus : status ≠ 200) :
    (∀ e ∈ jsonError status error, e.isSign = false) ∧
      ∀ b, (200, b) ∉ responses (jsonError status error) := by
  have hne : ¬ 200 = status := fun h => hstatus h.symm
  rcases error with _ | _ | ⟨isValidationError, code, _ | _⟩ <;>
    simp [jsonError, responses, Effect.isSign, hne]

theorem signupCreateCatch_quiet (error : Thrown) :
    (∀ e ∈ signupCreateCatch error, e.isSign = false) ∧
      ∀ b, (200, b) ∉ responses (signupCreateCatch error) := by
  rcases error with _ | _ | ⟨isValidationError, code, serialisable⟩
  · simp [signupCreateCatch, responses, Effect.isSign]
  · simp [signupCreateCatch, responses, Effect.isSign]
  · cases isValidationError
    · by_cases hc : code = .num 11000
      · have h := jsonError_quiet 502 (.value false code serialisable) (by decide)
        simp only [signupCreateCatch, hc, if_true, List.mem_cons, responses]
        rw [hc] at h
        exact ⟨fun e he => he.elim (fun h1 => by rw [h1]; rfl) (h.1 e), h.2⟩
      · have h := jsonError_quiet 503 (.value false code serialisable) (by decide)
        simp only [signupCreateCatch, hc, if_false]
        exact h
    · have h := jsonError_quiet 501 (.value true code serialisable) (by decide)
      simp only [signupCreateCatch, List.mem_cons, responses]
      exact ⟨fun e he => he.elim (fun h1 => by rw [h1]; rfl) (h.1 e), h.2⟩

theorem quiet_after_create (body : SignupBody) (salt : String)
    (digest : JsString) (tail : List Effect) (htail : (∀ e ∈ tail, e.isSign = false) ∧
      ∀ b, (200, b) ∉ responses tail) :
    (∀ e ∈ ([.findOne body.email, .genSaltSync saltRounds, .hashSync body.password salt,
        .create ⟨body.email, digest, body.username⟩] : List Effect) ++ tail,
        e.isSign = false) ∧
      ∀ b, (200, b) ∉ responses (([.findOne body.email, .genSaltSync saltRounds,
        .hashSync body.password salt, .create ⟨body.email, digest, body.username⟩] :
          List Effect) ++ tail) := by
  constructor
  · intro e he
    simp only [List.mem_append, List.mem_cons, List.mem_singleton,
      List.not_mem_nil, or_false] at he
    rcases he with (rfl | rfl | rfl | rfl) | he
    · rfl
    · rfl
    · rfl
    · rfl
    · exact htail.1 e he
  · intro b hb
    simp only [List.cons_append, List.nil_append, responses] at hb
    exact htail.2 b hb

/-- C6, as the code has it: when the `create` call of a signup rejects, the signer is
never called and no response of status 200 is sent; and when the rejection carries an
error value other than `undefined` and `null` that `res.json` can serialise, the single
response carries the error with a status chosen by cause: 501 for a validation error,
otherwise 502 for the duplicate-key code 11000 (a status outside 400/409, and not the
400 of the existence check), otherwise 503. -/
theorem signup_create_failure {σ : Type} (w : Collab σ) (db db1 : σ) (body : SignupBody)
    (salt : String) (digest : JsString) (error : Thrown)
    (he : body.email.truthy = true) (hp : body.password.truthy = true)
    (hu : body.username.truthy = true) (ht : emailRegex.testValue body.email = .ok true)
    (hnone : w.findOne db body.email = .ok none)
    (hsalt : w.genSaltSync saltRounds = .ok salt)
    (hhash : w.hashSync body.password salt = .ok digest)
    (hcreate : w.create db ⟨body.email, digest, body.username⟩ = (.error error, db1)) :
    (∀ e ∈ (signup w db body).1, e.isSign = false) ∧
      (∀ b, (200, b) ∉ responses (signup w db body).1) ∧
      ∀ isValidationError code, error = .value isValidationError code true →
        responses (signup w db body).1 =
          [(if isValidationError = true then 501
              else if code = .num 11000 then 502 else 503, .error error)] := by
  rw [signup_of_create_error w db db1 body salt digest _ he hp hu ht hnone hsalt hhash hcreate]
  have hq := quiet_after_create body salt digest _ (signupCreateCatch_quiet error)
  refine ⟨hq.1, hq.2, ?_⟩
  rintro isValidationError code rfl
  cases isValidationError
  · by_cases hc : code = .num 11000
    · simp [signupCreateCatch, jsonError, hc, responses]
    · simp [signupCreateCatch, jsonError, hc, responses]
  · simp [signupCreateCatch, jsonError, responses]

theorem signup_create_failure_witness :
    responses (signup (rejecting (.value true .undefined true)) []
        ⟨.str (js "a@b.co"), .str (js "pw"), .str (js "A")⟩).1 =
      [(501, .error (.value true .undefined true))] :=
  (signup_create_failure (rejecting (.value true .undefined true)) [] []
    ⟨.str (js "a@b.co"), .str (js "pw"), .str (js "A")⟩ "$" (js "$pw")
    (.value true .undefined true) rfl rfl rfl rfl rfl rfl rfl rfl).2.2 true .undefined rfl

/-- C6, as worded, fails for the duplicate-key signal: a `create` that rejects with
code 11000 is answered with status 502, which is neither 400 nor 409. -/
theorem signup_duplicate_key_counterexample :
    responses (signup (rejecting duplicateKey) []
        ⟨.str (js "a@b.co"), .str (js "pw"), .str (js "A")⟩).1 =
        [(502, .error (.value false (.num 11000) true))] ∧ 502 ∉ [400, 409] := by
  decide

/-! ## Where tokens come from -/

theorem signup_of_success {σ : Type} (w : Collab σ) (db db1 : σ) (body : SignupBody)
    (salt : String) (digest : JsString) (created : UserRecord) (tok : String)
    (he : body.email.truthy = true) (hp : body.password.truthy = true)
    (hu : body.username.truthy = true) (ht : emailRegex.testValue body.email = .ok true)
    (hnone : w.findOne db body.email = .ok none)
    (hsalt : w.genSaltSync saltRounds = .ok salt)
    (hhash : w.hashSync body.password salt = .ok digest)
    (hcreate : w.create db ⟨body.email, digest, body.username⟩ = (.ok created, db1))
    (hsign : w.sign (signupPayload created) w.secret jwtOptions = .ok tok) :
    signup w db body =
      ([.findOne body.email, .genSaltSync saltRounds, .hashSync body.password salt,
          .create ⟨body.email, digest, body.username⟩,
          .sign (signupPayload created) w.secret jwtOptions,
          .respond 200 (tokenBody tok)], db1) := by
  simp [signup, he, hp, hu, ht, hnone, hsalt, hhash, hcreate, hsign]

theorem login_of_success {σ : Type} (w : Collab σ) (db : σ) (body : LoginBody)
    (found : UserRecord) (tok : String)
    (he : body.email ≠ .str []) (hp : body.password ≠ .str [])
    (hfound : w.findOne db body.email = .ok (some found))
    (hcompare : w.compareSync body.password found.password = .ok true)
    (hsign : w.sign (loginPayload found) w.secret jwtOptions = .ok tok) :
    login w db body =
      [.findOne body.email, .compareSync body.password found.password,
        .sign (loginPayload found) w.secret jwtOptions, .respond 200 (tokenBody tok)] := by
  simp [login, he, hp, hfound, hcompare, hsign]

/-- Every signup run is of one of three kinds: the token was signed and sent; the
signer was called on the payload of the created record and threw; or the signer was
not called and no response has status 200. -/
theorem signup_cases {σ : Type} (w : Collab σ) (db : σ) (body : SignupBody) :
    (∃ salt digest created tok db1,
        w.genSaltSync saltRounds = .ok salt ∧ w.hashSync body.password salt = .ok digest ∧
        w.create db ⟨body.email, digest, body.username⟩ = (.ok created, db1) ∧
        w.sign (signupPayload created) w.secret jwtOptions = .ok tok ∧
        signup w db body =
          ([.findOne body.email, .genSaltSync saltRounds, .hashSync body.password salt,
            .create ⟨body.email, digest, body.username⟩,
            .sign (signupPayload created) w.secret jwtOptions,
            .respond 200 (tokenBody tok)], db1)) ∨
      (∃ salt digest created error db1,
        w.genSaltSync saltRounds = .ok salt ∧ w.hashSync body.password salt = .ok digest ∧
        w.create db ⟨body.email, digest, body.username⟩ = (.ok created, db1) ∧
        w.sign (signupPayload created) w.secret jwtOptions = .error error ∧
        signup w db body =
          ([.findOne body.email, .genSaltSync saltRounds, .hashSync body.password salt,
            .create ⟨body.email, digest, body.username⟩,
            .sign (signupPayload created) w.secret jwtOptions] ++
            signupCreateCatch error, db1)) ∨
      ((∀ e ∈ (signup w db body).1, e.isSign = false) ∧
        ∀ b, (200, b) ∉ responses (signup w db body).1) := by
  unfold signup
  split
  · right; right; simp [responses, Effect.isSign, message]
  · split
    · right; right; simp [responses, Effect.isSign]
    · right; right; simp [responses, Effect.isSign, message]
    · split
      · right; right; simp [responses, Effect.isSign, message, signupOuterCatch]
      · right; right; simp [responses, Effect.isSign, message]
      · split
        · right; right; simp [responses, Effect.isSign, message, signupOuterCatch]
        · rename_i salt hsalt
          split
          · right; right; simp [responses, Effect.isSign, message, signupOuterCatch]
          · rename_i digest hhash
            simp only
            split
            · rename_i error db1 hcreate
              right; right
              exact quiet_after_create body salt digest _ (signupCreateCatch_quiet error)
            · rename_i created db1 hcreate
              split
              · rename_i error hsign
                right; left
                exact ⟨salt, digest, created, error, db1, hsalt, hhash, hcreate, hsign, rfl⟩
              · rename_i tok hsign
                left
                exact ⟨salt, digest, created, tok, db1, hsalt, hhash, hcreate, hsign, rfl⟩

/-- Every login run is of one of three kinds: the token was signed and sent; the
signer was called on the payload of the found record and threw; or the signer was not
called and no response has status 200. -/
theorem login_cases {σ : Type} (w : Collab σ) (db : σ) (body : LoginBody) :
    (∃ found tok,
        body.email ≠ .str [] ∧ body.password ≠ .str [] ∧
        w.findOne db body.email = .ok (some found) ∧
        w.compareSync body.password found.password = .ok true ∧
        w.sign (loginPayload found) w.secret jwtOptions = .ok tok ∧
        login w db body =
          [.findOne body.email, .compareSync body.password found.password,
            .sign (loginPayload found) w.secret jwtOptions,
            .respond 200 (tokenBody tok)]) ∨
      (∃ found error,
        w.findOne db body.email = .ok (some found) ∧
        w.sign (loginPayload found) w.secret jwtOptions = .error error ∧
        login w db body =
          [.findOne body.email, .compareSync body.password found.password,
            .sign (loginPayload found) w.secret jwtOptions,
            .respond 500 (message "Internal Server Error")]) ∨
      ((∀ e ∈ login w db body, e.isSign = false) ∧
        ∀ b, (200, b) ∉ responses (login w db body)) := by
  unfold login
  split
  · right; right; simp [responses, Effect.isSign, message]
  · rename_i hne
    split
    · right; right; simp [responses, Effect.isSign, message, loginCatch]
    · right; right; simp [responses, Effect.isSign, message]
    · rename_i found hfound
      simp only
      split
      · right; right; simp [responses, Effect.isSign, message, loginCatch]
      · right; right; simp [responses, Effect.isSign, message]
      · rename_i hcompare
        split
        · rename_i error hsign
          right; left
          exact ⟨found, error, hfound, hsign, rfl⟩
        · rename_i tok hsign
          left
          exact ⟨found, tok, fun h => hne (Or.inl h), fun h => hne (Or.inr h), hfound,
            hcompare, hsign, rfl⟩

/-- C7: whenever signup calls the signer, the payload is made of exactly the fields
`email`, `username` and `_id` of the record `create` resolved with, and whenever login
calls the signer, of exactly the fields `_id`, `email` and `username` of the record the
lookup resolved with; neither payload depends on the `password` of the record: replacing
the password of a record changes neither payload. -/
theorem payload_omits_digest {σ : Type} (w : Collab σ) (db : σ) (sb : SignupBody)
    (lb : LoginBody) (p : Payload) (secret : JsVal) (o : SignOptions) :
    (Effect.sign p secret o ∈ (signup w db sb).1 →
        ∃ salt digest created,
          w.genSaltSync saltRounds = .ok salt ∧ w.hashSync sb.password salt = .ok digest ∧
          (w.create db ⟨sb.email, digest, sb.username⟩).1 = .ok created ∧
          p = [("email", created.email), ("username", created.username),
            ("_id", created._id)]) ∧
      (Effect.sign p secret o ∈ login w db lb →
        ∃ found, w.findOne db lb.email = .ok (some found) ∧
          p = [("_id", found._id), ("email", found.email), ("username", found.username)]) ∧
      ∀ (r : UserRecord) (digest : JsVal),
        signupPayload { r with password := digest } = signupPayload r ∧
          loginPayload { r with password := digest } = loginPayload r := by
  refine ⟨?_, ?_, fun r digest => ⟨rfl, rfl⟩⟩
  · intro h
    rcases signup_cases w db sb with
      ⟨salt, digest, created, tok, db1, hsalt, hhash, hcreate, _, hrun⟩ |
      ⟨salt, digest, created, error, db1, hsalt, hhash, hcreate, _, hrun⟩ | ⟨hquiet, _⟩
    · rw [hrun] at h
      refine ⟨salt, digest, created, hsalt, hhash, by rw [hcreate], ?_⟩
      simp at h
      exact h.1
    · rw [hrun] at h
      refine ⟨salt, digest, created, hsalt, hhash, by rw [hcreate], ?_⟩
      simp only [List.cons_append, List.nil_append, List.mem_cons, reduceCtorEq,
        false_or] at h
      rcases h with h | h
      · simp only [Effect.sign.injEq] at h
        exact h.1
      · exact absurd ((signupCreateCatch_quiet error).1 _ h) (by simp [Effect.isSign])
    · exact absurd (hquiet _ h) (by simp [Effect.isSign])
  · intro h
    rcases login_cases w db lb with
      ⟨found, tok, _, _, hfound, _, _, hrun⟩ | ⟨found, error, hfound, _, hrun⟩ |
      ⟨hquiet, _⟩
    · rw [hrun] at h
      refine ⟨found, hfound, ?_⟩
      simp at h
      exact h.1
    · rw [hrun] at h
      refine ⟨found, hfound, ?_⟩
      simp at h
      exact h.1
    · exact absurd (hquiet _ h) (by simp [Effect.isSign])

theorem payload_omits_digest_witness :
    (∃ salt digest created,
        sample.genSaltSync saltRounds = .ok salt ∧
        sample.hashSync (.str (js "pw")) salt = .ok digest ∧
        (sample.create [] ⟨.str (js "a@b.co"), digest, .str (js "A")⟩).1 = .ok created ∧
        [("email", .str (js "a@b.co")), ("username", .str (js "A")), ("_id", .num 0)] =
          [("email", created.email), ("username", created.username),
            ("_id", created._id)]) ∧
      ∃ found, sample.findOne [alice] (.str (js "a@b.co")) = .ok (some found) ∧
        [("_id", .num 0), ("email", .str (js "a@b.co")), ("username", .str (js "A"))] =
          [("_id", found._id), ("email", found.email), ("username", found.username)] :=
  ⟨(payload_omits_digest sample [] ⟨.str (js "a@b.co"), .str (js "pw"), .str (js "A")⟩
      ⟨.undefined, .undefined⟩
      [("email", .str (js "a@b.co")), ("username", .str (js "A")), ("_id", .num 0)]
      (.str (js "secret")) jwtOptions).1 (by decide),
    (payload_omits_digest sample [alice] ⟨.undefined, .undefined, .undefined⟩
      ⟨.str (js "a@b.co"), .str (js "pw")⟩
      [("_id", .num 0), ("email", .str (js "a@b.co")), ("username", .str (js "A"))]
      (.str (js "secret")) jwtOptions).2.1 (by decide)⟩

/-! ## Login: when a token is issued -/

/-- C8: a login run sends a response of status 200 only if the email and the password
are not the empty string, the lookup resolved with a record and the hasher verified the
supplied password against the stored digest of that record, and the response then
carries the token; if either field is the empty string the run is the single response
400 "Provide email and password." (no lookup); if the lookup resolves with no record
the run is the lookup followed by 401 "Incorrect Email or Password" (no call to the
hasher). -/
theorem login_token_only_if_verified {σ : Type} (w : Collab σ) (db : σ) (body : LoginBody) :
    (∀ b, (200, b) ∈ responses (login w db body) →
        body.email ≠ .str [] ∧ body.password ≠ .str [] ∧
        ∃ found tok, w.findOne db body.email = .ok (some found) ∧
          w.compareSync body.password found.password = .ok true ∧ b = tokenBody tok) ∧
      ((body.email = .str [] ∨ body.password = .str []) →
        login w db body = [.respond 400 (message "Provide email and password.")]) ∧
      (body.email ≠ .str [] → body.password ≠ .str [] →
        w.findOne db body.email = .ok none →
        login w db body =
          [.findOne body.email, .respond 401 (message "Incorrect Email or Password")]) := by
  refine ⟨?_, ?_, ?_⟩
  · intro b hb
    rcases login_cases w db body with
      ⟨found, tok, he, hp, hfound, hcompare, _, hrun⟩ | ⟨found, error, _, _, hrun⟩ |
      ⟨_, hquiet⟩
    · rw [hrun] at hb
      simp only [responses, List.mem_singleton, Prod.mk.injEq, true_and] at hb
      exact ⟨he, hp, found, tok, hfound, hcompare, hb⟩
    · rw [hrun] at hb
      simp [responses] at hb
    · exact absurd hb (hquiet b)
  · intro h
    simp [login, h]
  · intro he hp hnone
    simp [login, he, hp, hnone]

theorem login_token_only_if_verified_witness :
    ((.str (js "a@b.co") : JsVal) ≠ .str [] ∧ (.str (js "pw") : JsVal) ≠ .str [] ∧
        ∃ found tok, sample.findOne [alice] (.str (js "a@b.co")) = .ok (some found) ∧
          sample.compareSync (.str (js "pw")) found.password = .ok true ∧
          tokenBody "token" = tokenBody tok) ∧
      login sample [alice] ⟨.str [], .str (js "pw")⟩ =
        [.respond 400 (message "Provide email and password.")] ∧
      login sample [alice] ⟨.str (js "x@y.zz"), .str (js "pw")⟩ =
        [.findOne (.str (js "x@y.zz")),
          .respond 401 (message "Incorrect Email or Password")] :=
  ⟨(login_token_only_if_verified sample [alice] ⟨.str (js "a@b.co"), .str (js "pw")⟩).1
      (tokenBody "token") (by decide),
    (login_token_only_if_verified sample [alice] ⟨.str [], .str (js "pw")⟩).2.1
      (Or.inl rfl),
    (login_token_only_if_verified sample [alice] ⟨.str (js "x@y.zz"), .str (js "pw")⟩).2.2
      (by decide) (by decide) rfl⟩

/-! ## The success response -/

/-- C9: a signup whose checks pass, whose lookup finds no record and whose salt, hash,
`create` and signature succeed, and a login whose fields are not empty, whose lookup
finds a record, whose password verifies and whose signature succeeds, end with the
response of status 200 whose body is the object with the sole field `authToken`, the
token being what the signer returned for the payload of the record (created, for
signup; found, for login), the secret of the process and the options algorithm "HS256"
and expiresIn "6h", the same options in both handlers; and conversely, whenever a
signup or a login run sends a response of status 200, that response is the only one,
its body is that object and the token in it is what the signer returned for these
arguments. -/
theorem success_response {σ : Type} (w : Collab σ) (db : σ) (sb : SignupBody)
    (lb : LoginBody) (b : Body) :
    ((200, b) ∈ responses (signup w db sb).1 →
        ∃ salt digest created tok,
          w.genSaltSync saltRounds = .ok salt ∧ w.hashSync sb.password salt = .ok digest ∧
          (w.create db ⟨sb.email, digest, sb.username⟩).1 = .ok created ∧
          w.sign [("email", created.email), ("username", created.username),
            ("_id", created._id)] w.secret ⟨"HS256", "6h"⟩ = .ok tok ∧
          b = .fields [("authToken", tok)] ∧
          responses (signup w db sb).1 = [(200, b)]) ∧
      ((200, b) ∈ responses (login w db lb) →
        ∃ found tok,
          w.findOne db lb.email = .ok (some found) ∧
          w.sign [("_id", found._id), ("email", found.email), ("username", found.username)]
            w.secret ⟨"HS256", "6h"⟩ = .ok tok ∧
          b = .fields [("authToken", tok)] ∧
          responses (login w db lb) = [(200, b)]) ∧
      (∀ salt digest created db1 tok,
        sb.email.truthy = true → sb.password.truthy = true → sb.username.truthy = true →
        emailRegex.testValue sb.email = .ok true →
        w.findOne db sb.email = .ok none →
        w.genSaltSync saltRounds = .ok salt → w.hashSync sb.password salt = .ok digest →
        w.create db ⟨sb.email, digest, sb.username⟩ = (.ok created, db1) →
        w.sign [("email", created.email), ("username", created.username),
          ("_id", created._id)] w.secret ⟨"HS256", "6h"⟩ = .ok tok →
        signup w db sb =
          ([.findOne sb.email, .genSaltSync saltRounds, .hashSync sb.password salt,
            .create ⟨sb.email, digest, sb.username⟩,
            .sign [("email", created.email), ("username", created.username),
              ("_id", created._id)] w.secret ⟨"HS256", "6h"⟩,
            .respond 200 (.fields [("authToken", tok)])], db1)) ∧
      (∀ found tok,
        lb.email ≠ .str [] → lb.password ≠ .str [] →
        w.findOne db lb.email = .ok (some found) →
        w.compareSync lb.password found.password = .ok true →
        w.sign [("_id", found._id), ("email", found.email), ("username", found.username)]
          w.secret ⟨"HS256", "6h"⟩ = .ok tok →
        login w db lb =
          [.findOne lb.email, .compareSync lb.password found.password,
            .sign [("_id", found._id), ("email", found.email),
              ("username", found.username)] w.secret ⟨"HS256", "6h"⟩,
            .respond 200 (.fields [("authToken", tok)])]) := by
  refine ⟨?_, ?_, ?_, ?_⟩
  · intro hb
    rcases signup_cases w db sb with
      ⟨salt, digest, created, tok, db1, hsalt, hhash, hcreate, hsign, hrun⟩ |
      ⟨salt, digest, created, error, db1, _, _, _, _, hrun⟩ | ⟨_, hquiet⟩
    · rw [hrun] at hb ⊢
      simp only [responses, List.mem_singleton, Prod.mk.injEq, true_and] at hb
      subst hb
      exact ⟨salt, digest, created, tok, hsalt, hhash, by rw [hcreate], hsign, rfl, rfl⟩
    · rw [hrun] at hb
      simp only [List.cons_append, List.nil_append, responses] at hb
      exact absurd hb ((signupCreateCatch_quiet error).2 b)
    · exact absurd hb (hquiet b)
  · intro hb
    rcases login_cases w db lb with
      ⟨found, tok, _, _, hfound, _, hsign, hrun⟩ | ⟨found, error, _, _, hrun⟩ |
      ⟨_, hquiet⟩
    · rw [hrun] at hb ⊢
      simp only [responses, List.mem_singleton, Prod.mk.injEq, true_and] at hb
      subst hb
      exact ⟨found, tok, hfound, hsign, rfl, rfl⟩
    · rw [hrun] at hb
      simp [responses] at hb
    · exact absurd hb (hquiet b)
  · intro salt digest created db1 tok he hp hu ht hnone hsalt hhash hcreate hsign
    exact signup_of_success w db db1 sb salt digest created tok he hp hu ht hnone hsalt
      hhash hcreate hsign
  · intro found tok he hp hfound hcompare hsign
    exact login_of_success w db lb found tok he hp hfound hcompare hsign

theorem success_response_witness :
    (∃ salt digest created tok,
        sample.genSaltSync saltRounds = .ok salt ∧
        sample.hashSync (.str (js "pw")) salt = .ok digest ∧
        (sample.create [] ⟨.str (js "a@b.co"), digest, .str (js "A")⟩).1 = .ok created ∧
        sample.sign [("email", created.email), ("username", created.username),
          ("_id", created._id)] sample.secret ⟨"HS256", "6h"⟩ = .ok tok ∧
        tokenBody "token" = .fields [("authToken", tok)] ∧
        responses (signup sample [] ⟨.str (js "a@b.co"), .str (js "pw"), .str (js "A")⟩).1 =
          [(200, tokenBody "token")]) ∧
      (∃ found tok,
        sample.findOne [alice] (.str (js "a@b.co")) = .ok (some found) ∧
        sample.sign [("_id", found._id), ("email", found.email),
          ("username", found.username)] sample.secret ⟨"HS256", "6h"⟩ = .ok tok ∧
        tokenBody "token" = .fields [("authToken", tok)] ∧
        responses (login sample [alice] ⟨.str (js "a@b.co"), .str (js "pw")⟩) =
          [(200, tokenBody "token")]) ∧
      signup sample [] ⟨.str (js "a@b.co"), .str (js "pw"), .str (js "A")⟩ =
        ([.findOne (.str (js "a@b.co")), .genSaltSync saltRounds,
          .hashSync (.str (js "pw")) "$",
          .create ⟨.str (js "a@b.co"), js "$pw", .str (js "A")⟩,
          .sign [("email", .str (js "a@b.co")), ("username", .str (js "A")),
            ("_id", .num 0)] sample.secret ⟨"HS256", "6h"⟩,
          .respond 200 (.fields [("authToken", "token")])],
          [⟨.num 0, .str (js "a@b.co"), .str (js "A"), .str (js "$pw")⟩]) ∧
      login sample [alice] ⟨.str (js "a@b.co"), .str (js "pw")⟩ =
        [.findOne (.str (js "a@b.co")), .compareSync (.str (js "pw")) alice.password,
          .sign [("_id", alice._id), ("email", alice.email), ("username", alice.username)]
            sample.secret ⟨"HS256", "6h"⟩,
          .respond 200 (.fields [("authToken", "token")])] :=
  ⟨(success_response sample [] ⟨.str (js "a@b.co"), .str (js "pw"), .str (js "A")⟩
      ⟨.undefined, .undefined⟩ (tokenBody "token")).1 (by decide),
    (success_response sample [alice] ⟨.undefined, .undefined, .undefined⟩
      ⟨.str (js "a@b.co"), .str (js "pw")⟩ (tokenBody "token")).2.1 (by decide),
    (success_response sample [] ⟨.str (js "a@b.co"), .str (js "pw"), .str (js "A")⟩
      ⟨.undefined, .undefined⟩ (tokenBody "token")).2.2.1 "$" (js "$pw")
      ⟨.num 0, .str (js "a@b.co"), .str (js "A"), .str (js "$pw")⟩ _ "token"
      rfl rfl rfl rfl rfl rfl rfl rfl rfl,
    (success_response sample [alice] ⟨.undefined, .undefined, .undefined⟩
      ⟨.str (js "a@b.co"), .str (js "pw")⟩ (tokenBody "token")).2.2.2 alice "token"
      (by decide) (by decide) rfl rfl rfl⟩

/-! ## One response per request -/

/-- Login answers every request exactly once, whatever the collaborators do. -/
theorem login_responds_once {σ : Type} (w : Collab σ) (db : σ) (body : LoginBody) :
    (responses (login w db body)).length = 1 := by
  unfold login
  split
  · rfl
  · split
    · rfl
    · rfl
    · simp only
      split
      · rfl
      · rfl
      · split <;> rfl

theorem signupCreateCatch_sendable (error : Thrown) (h : error.sendable = true) :
    (responses (signupCreateCatch error)).length = 1 := by
  rcases error with _ | _ | ⟨isValidationError, code, _ | _⟩
  · simp [Thrown.sendable] at h
  · simp [Thrown.sendable] at h
  · simp [Thrown.sendable] at h
  · cases isValidationError
    · by_cases hc : code = .num 11000 <;> simp [signupCreateCatch, jsonError, hc, responses]
    · simp [signupCreateCatch, jsonError, responses]

/-- Signup answers a request exactly once as long as the conversion of the email to a
string does not throw and neither `create` nor the signer fails with a value that the
`.catch` on `create` cannot report. -/
theorem signup_responds_once {σ : Type} (w : Collab σ) (db : σ) (body : SignupBody)
    (htest : ∀ e, emailRegex.testValue body.email ≠ .error e)
    (hcreate : ∀ doc e, (w.create db doc).1 = .error e → e.sendable = true)
    (hsign : ∀ p e, w.sign p w.secret jwtOptions = .error e → e.sendable = true) :
    (responses (signup w db body).1).length = 1 := by
  unfold signup
  split
  · rfl
  · split
    · rename_i e he
      exact absurd he (htest e)
    · rfl
    · split
      · rfl
      · rfl
      · split
        · rfl
        · split
          · rfl
          · rename_i digest _
            simp only
            split
            · rename_i error db1 hc
              have h := hcreate ⟨body.email, digest, body.username⟩ error (by rw [hc])
              simpa [responses] using signupCreateCatch_sendable error h
            · rename_i created db1 _
              split
              · rename_i error hs
                have h := hsign (signupPayload created) error hs
                simpa [responses] using signupCreateCatch_sendable error h
              · rfl

/-- C10: evaluated on a well-formed signup request for which the lookup finds no
record, the handler sends no response at all when `create` rejects with `undefined`,
and none either when it rejects with an error object that `res.json` cannot serialise:
the run ends in an unhandled rejection, the `TypeError` raised inside the `.catch` on
`create`, which the outer `.catch` never sees because the promise is not returned. -/
theorem signup_unanswered :
    signup (rejecting .undefined) [] ⟨.str (js "a@b.co"), .str (js "pw"), .str (js "A")⟩ =
        ([.findOne (.str (js "a@b.co")), .genSaltSync 10, .hashSync (.str (js "pw")) "$",
          .create ⟨.str (js "a@b.co"), js "$pw", .str (js "A")⟩,
          .unhandledRejection typeError], []) ∧
      responses (signup (rejecting .undefined) []
        ⟨.str (js "a@b.co"), .str (js "pw"), .str (js "A")⟩).1 = [] ∧
      signup (rejecting (.value false .undefined false)) []
          ⟨.str (js "a@b.co"), .str (js "pw"), .str (js "A")⟩ =
        ([.findOne (.str (js "a@b.co")), .genSaltSync 10, .hashSync (.str (js "pw")) "$",
          .create ⟨.str (js "a@b.co"), js "$pw", .str (js "A")⟩,
          .unhandledRejection typeError], []) ∧
      responses (signup (rejecting (.value false .undefined false)) []
        ⟨.str (js "a@b.co"), .str (js "pw"), .str (js "A")⟩).1 = [] := by
  decide

end PunchClock
